import Mathlib

/-!
Shallow embedding of the debtlens scoring engine (src/src-tauri), together
with proofs of the spec claims.  Rust `f64` values are modelled as `ℚ`
(every arithmetic operation appearing in the claims is exact decimal
arithmetic), `usize`/`u32` as `ℕ`, `i64` as `ℤ`, `HashMap` as association
lists, and fallible operations as `Option`/`Except`.  File-system and git
access (reading sources, walking the tree, blame) is abstracted into
explicit parameters; the pure computations on the extracted facts are
translated from the source verbatim.
-/

namespace Debtlens

/-- `models/file_score.rs`: one analyzer's verdict. -/
structure ComponentScore where
  raw_score : ℚ
  weight : ℚ
  contribution : ℚ
  details : List String
deriving DecidableEq, Repr

/-- `models/file_score.rs`: the eight named component slots. -/
structure ScoreComponents where
  churn_rate : ComponentScore
  code_smell_density : ComponentScore
  coupling_index : ComponentScore
  change_coupling : ComponentScore
  test_coverage_gap : ComponentScore
  knowledge_concentration : ComponentScore
  cyclomatic_complexity : ComponentScore
  decision_staleness : ComponentScore
deriving DecidableEq, Repr

/-- `models/file_score.rs`: per-file score record. -/
structure FileScore where
  path : String
  relative_path : String
  composite_score : ℚ
  components : ScoreComponents
  loc : ℕ
  language : String
  last_modified : ℤ
  supervision_status : String
deriving DecidableEq, Repr

/-- `models/file_score.rs`: workspace-level rollup. -/
structure AnalysisResult where
  workspace_score : ℚ
  file_count : ℕ
  high_debt_count : ℕ
  files : List FileScore
  duration_ms : ℕ
deriving DecidableEq, Repr

/-- `models/file_score.rs`: one row of the per-component breakdown. -/
structure ComponentDetail where
  name : String
  raw_score : ℚ
  weight : ℚ
  contribution : ℚ
  details : List String
deriving DecidableEq, Repr

/-- `models/file_score.rs`: breakdown returned by `get_file_breakdown`. -/
structure FileBreakdown where
  path : String
  composite_score : ℚ
  components : List ComponentDetail
deriving DecidableEq, Repr

/-- `commands/ast.rs`: smell counters for one file. -/
structure FileSmells where
  god_function : ℕ
  deep_nesting : ℕ
  long_param_list : ℕ
  duplicate_block : ℕ
  dead_import : ℕ
  magic_number : ℕ
  empty_catch : ℕ
  todo_fixme : ℕ
  total : ℕ
  loc : ℕ
deriving DecidableEq, Repr

/-- `analysis/churn.rs`: relative path → commit count in the window. -/
abbrev ChurnData := List (String × ℕ)

/-- `analysis/knowledge.rs`: file → author → attributed line count. -/
abbrev BlameData := List (String × List (String × ℕ))

/-- `analysis/coupling.rs`: co-change pair table plus per-file counts. -/
structure CoChangeResult where
  pairs : List (String × String × ℕ)
  file_change_counts : List (String × ℕ)
deriving DecidableEq, Repr

/-- `analysis/churn.rs` `compute_file_churn`: churn score for one file. -/
def compute_file_churn (churn_data : ChurnData) (relative_path : String)
    (history_days : ℕ) : ℚ :=
  let count : ℚ := ((churn_data.lookup relative_path).getD 0 : ℕ)
  let daily_rate : ℚ := count / ((max history_days 1 : ℕ) : ℚ)
  min (daily_rate * 100) 100

/-- `analysis/knowledge.rs` `compute_knowledge_concentration`. -/
def compute_knowledge_concentration (blame_data : BlameData)
    (relative_path : String) : ℚ :=
  match blame_data.lookup relative_path with
  | none => 0
  | some authors =>
    let total_lines : ℕ := (authors.map (fun a => a.2)).sum
    if total_lines = 0 then 0
    else
      let max_lines : ℕ := ((authors.map (fun a => a.2)).max?).getD 0
      let concentration : ℚ := (max_lines : ℚ) / (total_lines : ℚ)
      if concentration ≤ 0.5 then 0
      else min ((concentration - 0.5) / 0.5 * 100) 100

/-- `analysis/coupling.rs` `compute_change_coupling`: average of the top 5
peer co-change ratios, × 100. -/
def compute_change_coupling (relative_path : String)
    (co_change_result : CoChangeResult) : ℚ :=
  let ratios : List ℚ := co_change_result.pairs.filterMap (fun t =>
    if t.1 == relative_path || t.2.1 == relative_path then
      let changes_a : ℕ := (co_change_result.file_change_counts.lookup t.1).getD 1
      let changes_b : ℕ := (co_change_result.file_change_counts.lookup t.2.1).getD 1
      let min_changes : ℚ := ((max (min changes_a changes_b) 1 : ℕ) : ℚ)
      some (min ((t.2.2 : ℚ) / min_changes) 1)
    else none)
  if ratios.isEmpty then 0
  else
    let sorted := ratios.insertionSort (fun a b => b ≤ a)
    let top_n := sorted.take 5
    let avg := top_n.sum / (top_n.length : ℚ)
    min (avg * 100) 100

/-- `commands/scoring.rs` `compute_smell_score`. -/
def compute_smell_score (smells : FileSmells) (loc : ℕ) : ℚ :=
  if loc = 0 then 0
  else min ((smells.total : ℚ) / (loc : ℚ) * 5000) 100

/-- `models/file_score.rs`: heatmap tree node.  `children = some _` marks a
directory, `children = none` a file leaf. -/
inductive HeatmapNode where
  | mk : String → String → Option ℚ → Option ℕ → Option (List HeatmapNode) → HeatmapNode

def HeatmapNode.name : HeatmapNode → String
  | .mk n _ _ _ _ => n

def HeatmapNode.path : HeatmapNode → String
  | .mk _ p _ _ _ => p

def HeatmapNode.score : HeatmapNode → Option ℚ
  | .mk _ _ s _ _ => s

def HeatmapNode.loc : HeatmapNode → Option ℕ
  | .mk _ _ _ l _ => l

def HeatmapNode.children : HeatmapNode → Option (List HeatmapNode)
  | .mk _ _ _ _ c => c

/-- Replace a node's child list, keeping the other fields (models the effect
of mutating `node.children` in `insert_into_tree`). -/
def HeatmapNode.setChildren : HeatmapNode → Option (List HeatmapNode) → HeatmapNode
  | .mk n p s l _, cs => .mk n p s l cs

/-- The `next_prefix` computation of `insert_into_tree`:
`if prefix.is_empty() { dir } else { format!("{prefix}/{dir}") }`. -/
def path_join (pfx : String) (dir : String) : String :=
  if pfx == "" then dir else pfx ++ "/" ++ dir

/-- Successive application of `path_join` along a chain of names: the path a
directory node at that chain receives in the built tree. -/
def joined (parts : List String) : String :=
  parts.foldl path_join ""

mutual

/-- `commands/scoring.rs` `insert_into_tree`: walk/create directory nodes for
all but the last path segment, then push a leaf carrying the file's score. -/
def insert_into_tree : List String → HeatmapNode → FileScore → String → HeatmapNode
  | [], node, _, _ => node
  | [leaf_name], node, file, _ =>
    let cs := node.children.getD []
    node.setChildren (some (cs ++
      [HeatmapNode.mk leaf_name file.relative_path (some file.composite_score)
        (some file.loc) none]))
  | dir_name :: r :: rs, node, file, pfx =>
    let next_pfx := path_join pfx dir_name
    let cs := node.children.getD []
    node.setChildren (some (insert_into_children dir_name (r :: rs) file next_pfx cs))
termination_by parts _ _ _ => (parts.length, 0)

/-- The child-walking loop of `insert_into_tree`: the first existing child
whose name matches `dir_name` and which already has a child list is reused;
otherwise a fresh directory node is appended at the end. -/
def insert_into_children (dir_name : String) (rest : List String) (file : FileScore)
    (next_pfx : String) : List HeatmapNode → List HeatmapNode
  | [] =>
    [insert_into_tree rest (HeatmapNode.mk dir_name next_pfx none none (some [])) file next_pfx]
  | c :: cs =>
    if c.name == dir_name && c.children.isSome then
      insert_into_tree rest c file next_pfx :: cs
    else
      c :: insert_into_children dir_name rest file next_pfx cs
termination_by cs => (rest.length, cs.length + 1)

end

/-- `commands/scoring.rs` `build_heatmap_tree`: fold every file's relative
path into a directory tree under an unscored root. -/
def build_heatmap_tree (workspace_path : String) (files : List FileScore) : HeatmapNode :=
  let root_name := ((workspace_path.splitOn "/").filter (fun s => s ≠ "")).getLastD "root"
  let root := HeatmapNode.mk root_name workspace_path none none (some [])
  files.foldl (fun node file =>
    insert_into_tree (file.relative_path.splitOn "/") node file "") root

mutual

/-- Invariant checked below the root: a node reached through the chain of
ancestor names `pref` (its own name last) is either a leaf whose stored path
splits into exactly that chain, or a directory whose stored path is the
separator-join of the chain, with all children satisfying the same property
one level deeper. -/
def node_ok : List String → HeatmapNode → Bool
  | pref, .mk _ p _ _ none => p.splitOn "/" == pref
  | pref, .mk _ p _ _ (some cs) => (p == joined pref) && forest_ok pref cs

/-- All nodes of a child list satisfy `node_ok` for their extended chains. -/
def forest_ok : List String → List HeatmapNode → Bool
  | _, [] => true
  | pref, c :: cs => node_ok (pref ++ [c.name]) c && forest_ok pref cs

end

/-- `commands/scoring.rs` `AnalysisInputs`: shared per-run context. -/
structure AnalysisInputs where
  history_days : ℕ
  weights : List (String × ℚ)
  churn : ChurnData
  blame : BlameData
  co_changes : CoChangeResult

/-- `commands/scoring.rs` `score_file`.  The file-system derived facts
(source line count, detected smells, relative path and language, the four
raw signals that scan the workspace or disk, and the file's mtime) are
passed in explicitly; the history-derived signals and the weighting are
computed exactly as in the source. -/
def score_file (file_path : String) (inputs : AnalysisInputs)
    (relative_path : String) (lang : String) (loc : ℕ) (last_modified : ℤ)
    (smells : FileSmells) (coupling_raw coverage_raw staleness_raw : ℚ)
    (complexity_average : ℚ) : FileScore :=
  let churn_raw := compute_file_churn inputs.churn relative_path inputs.history_days
  let smell_raw := compute_smell_score smells loc
  let change_coupling_raw := compute_change_coupling relative_path inputs.co_changes
  let knowledge_raw := compute_knowledge_concentration inputs.blame relative_path
  let complexity_raw := min (complexity_average / 20 * 100) 100
  let w := inputs.weights
  let components : ScoreComponents :=
    { churn_rate :=
        { raw_score := churn_raw
          weight := (w.lookup "churn_rate").getD 0.22
          contribution := churn_raw * (w.lookup "churn_rate").getD 0.22
          details := [] }
      code_smell_density :=
        { raw_score := smell_raw
          weight := (w.lookup "code_smell_density").getD 0.20
          contribution := smell_raw * (w.lookup "code_smell_density").getD 0.20
          details := [toString smells.total ++ " smells in " ++ toString loc ++ " LOC"] }
      coupling_index :=
        { raw_score := coupling_raw
          weight := (w.lookup "coupling_index").getD 0.18
          contribution := coupling_raw * (w.lookup "coupling_index").getD 0.18
          details := [] }
      change_coupling :=
        { raw_score := change_coupling_raw
          weight := (w.lookup "change_coupling").getD 0.12
          contribution := change_coupling_raw * (w.lookup "change_coupling").getD 0.12
          details := [] }
      test_coverage_gap :=
        { raw_score := coverage_raw
          weight := (w.lookup "test_coverage_gap").getD 0.12
          contribution := coverage_raw * (w.lookup "test_coverage_gap").getD 0.12
          details := [] }
      knowledge_concentration :=
        { raw_score := knowledge_raw
          weight := (w.lookup "knowledge_concentration").getD 0.08
          contribution := knowledge_raw * (w.lookup "knowledge_concentration").getD 0.08
          details := [] }
      cyclomatic_complexity :=
        { raw_score := complexity_raw
          weight := (w.lookup "cyclomatic_complexity").getD 0.05
          contribution := complexity_raw * (w.lookup "cyclomatic_complexity").getD 0.05
          details := ["avg complexity: " ++ toString complexity_average] }
      decision_staleness :=
        { raw_score := staleness_raw
          weight := (w.lookup "decision_staleness").getD 0.03
          contribution := staleness_raw * (w.lookup "decision_staleness").getD 0.03
          details := [] } }
  let composite_score := components.churn_rate.contribution
    + components.code_smell_density.contribution
    + components.coupling_index.contribution
    + components.change_coupling.contribution
    + components.test_coverage_gap.contribution
    + components.knowledge_concentration.contribution
    + components.cyclomatic_complexity.contribution
    + components.decision_staleness.contribution
  { path := file_path
    relative_path := relative_path
    composite_score := composite_score
    components := components
    loc := loc
    language := lang
    last_modified := last_modified
    supervision_status := "none" }

/-- `commands/scoring.rs` `to_detail`. -/
def to_detail (name : String) (component : ComponentScore) : ComponentDetail :=
  { name := name
    raw_score := component.raw_score
    weight := component.weight
    contribution := component.contribution
    details := component.details }

/-- The file lookup inside `get_file_breakdown`:
`find(|f| f.relative_path == path || f.path == path)`. -/
def find_file (result : AnalysisResult) (path : String) : Option FileScore :=
  result.files.find? (fun f => f.relative_path == path || f.path == path)

/-- `commands/scoring.rs` `get_file_breakdown`, over the cached result. -/
def get_file_breakdown (result : Option AnalysisResult) (path : String) :
    Except String FileBreakdown :=
  match result with
  | none => .error "No analysis data"
  | some result =>
    match find_file result path with
    | none => .error ("File not found: " ++ path)
    | some file =>
      .ok { path := file.relative_path
            composite_score := file.composite_score
            components :=
              [to_detail "churn_rate" file.components.churn_rate,
               to_detail "code_smell_density" file.components.code_smell_density,
               to_detail "coupling_index" file.components.coupling_index,
               to_detail "change_coupling" file.components.change_coupling,
               to_detail "test_coverage_gap" file.components.test_coverage_gap,
               to_detail "knowledge_concentration" file.components.knowledge_concentration,
               to_detail "cyclomatic_complexity" file.components.cyclomatic_complexity,
               to_detail "decision_staleness" file.components.decision_staleness] }

/-- `commands/scoring.rs` `build_analysis_result`. -/
def build_analysis_result (files : List FileScore) (duration_ms : ℕ) : AnalysisResult :=
  let file_count := files.length
  let total_score : ℚ := (files.map (fun f => f.composite_score)).sum
  let high_debt_count := (files.filter (fun f => 65 < f.composite_score)).length
  { workspace_score := if file_count = 0 then 0 else total_score / (file_count : ℚ)
    file_count := file_count
    high_debt_count := high_debt_count
    files := files
    duration_ms := duration_ms }

/-- `models/file_score.rs` `AnalysisCache`: in-memory cache. -/
structure AnalysisCache where
  workspace_path : Option String
  result : Option AnalysisResult
  heatmap : Option HeatmapNode

/-- The upsert loop of `patch_cached_result`: replace the first file with
matching absolute or relative path, else push at the end. -/
def patch_files (files : List FileScore) (file : FileScore) : List FileScore :=
  match files with
  | [] => [file]
  | f :: fs =>
    if f.path == file.path || f.relative_path == file.relative_path then file :: fs
    else f :: patch_files fs file

/-- `commands/scoring.rs` `patch_cached_result`. -/
def patch_cached_result (cache : AnalysisCache) (workspace_path : String)
    (file : FileScore) : AnalysisCache :=
  if cache.workspace_path ≠ some workspace_path then
    let result : AnalysisResult :=
      { workspace_score := file.composite_score
        file_count := 1
        high_debt_count := if 65 < file.composite_score then 1 else 0
        files := [file]
        duration_ms := 0 }
    { workspace_path := some workspace_path
      result := some result
      heatmap := some (build_heatmap_tree workspace_path result.files) }
  else
    let result := cache.result.getD
      { workspace_score := 0, file_count := 0, high_debt_count := 0, files := [], duration_ms := 0 }
    let files := patch_files result.files file
    let total : ℚ := (files.map (fun f => f.composite_score)).sum
    let result :=
      { result with
        files := files
        file_count := files.length
        workspace_score := if files.isEmpty then 0 else total / (files.length : ℚ)
        high_debt_count := (files.filter (fun f => 65 < f.composite_score)).length }
    { cache with
      result := some result
      heatmap := some (build_heatmap_tree workspace_path files) }

/-- `commands/scoring.rs` `update_cache`. -/
def update_cache (cache : AnalysisCache) (workspace_path : String)
    (result : AnalysisResult) : AnalysisCache :=
  let _ := cache
  { workspace_path := some workspace_path
    heatmap := some (build_heatmap_tree workspace_path result.files)
    result := some result }

/-- The serialized `score_data_json` column: either a blob that
deserializes to a `ScoreComponents` value, or a malformed string.
`serde_json` round-trips every finite component value exactly, so
serialization is modelled as `valid`. -/
inductive Blob where
  | valid : ScoreComponents → Blob
  | malformed : String → Blob
deriving DecidableEq, Repr

/-- `serde_json::from_str::<ScoreComponents>` on the stored blob. -/
def parse_components : Blob → Option ScoreComponents
  | .valid c => some c
  | .malformed _ => none

/-- One row of the `file_scores` table (`commands/db.rs`). -/
structure DbRow where
  path : String
  relative_path : String
  composite_score : ℚ
  loc : ℤ
  language : String
  last_modified : ℤ
  supervision_status : String
  mtime_cached : Option ℤ
  score_data_json : Blob
  updated_at : ℤ
deriving DecidableEq, Repr

/-- The `file_scores` table, keyed by absolute path. -/
abbrev Db := List DbRow

/-- `SELECT ... WHERE path = ?1` row lookup. -/
def db_find (db : Db) (p : String) : Option DbRow :=
  db.find? (fun r => r.path == p)

/-- The row written by `upsert_file_score_with_conn`: note that
`mtime_cached` is set from the score's `last_modified` and the components
are serialized into `score_data_json`. -/
def file_score_row (now : ℤ) (file : FileScore) : DbRow :=
  { path := file.path
    relative_path := file.relative_path
    composite_score := file.composite_score
    loc := (file.loc : ℤ)
    language := file.language
    last_modified := file.last_modified
    supervision_status := file.supervision_status
    mtime_cached := some file.last_modified
    score_data_json := .valid file.components
    updated_at := now }

/-- `commands/db.rs` `upsert_file_score_with_conn`:
`INSERT ... ON CONFLICT(path) DO UPDATE` — replace the row with the same
primary key in place, else append. -/
def upsert_file_score (db : Db) (now : ℤ) (file : FileScore) : Db :=
  if (db.find? (fun r => r.path == file.path)).isSome then
    db.map (fun r => if r.path == file.path then file_score_row now file else r)
  else
    db ++ [file_score_row now file]

/-- `commands/db.rs` `upsert_file_scores`: transactional upsert of a list. -/
def upsert_file_scores (db : Db) (now : ℤ) (files : List FileScore) : Db :=
  files.foldl (fun acc file => upsert_file_score acc now file) db

/-- `commands/db.rs` `load_cached_file_mtime`: `Ok(None)` when no row
exists; a row whose nullable `mtime_cached` column is NULL makes the typed
`row.get::<_, i64>` fail. -/
def load_cached_file_mtime (db : Db) (file_path : String) : Except String (Option ℤ) :=
  match db_find db file_path with
  | none => .ok none
  | some row =>
    match row.mtime_cached with
    | some m => .ok (some m)
    | none => .error "InvalidColumnType"

/-- The `FileScore` decoded from a row by `load_cached_file_score`; a blob
that fails to deserialize degrades to `empty_components`. -/
def empty_components : ScoreComponents :=
  let zero : ComponentScore := { raw_score := 0, weight := 0, contribution := 0, details := [] }
  { churn_rate := zero
    code_smell_density := zero
    coupling_index := zero
    change_coupling := zero
    test_coverage_gap := zero
    knowledge_concentration := zero
    cyclomatic_complexity := zero
    decision_staleness := zero }

def row_to_file_score (row : DbRow) : FileScore :=
  { path := row.path
    relative_path := row.relative_path
    composite_score := row.composite_score
    components := (parse_components row.score_data_json).getD empty_components
    loc := row.loc.toNat
    language := row.language
    last_modified := row.last_modified
    supervision_status := row.supervision_status }

/-- `commands/db.rs` `load_cached_file_score`. -/
def load_cached_file_score (db : Db) (file_path : String) : Option FileScore :=
  (db_find db file_path).map row_to_file_score

/-- Outcome of one `reanalyze_file_internal` call: the returned score, the
durable store and in-memory cache afterwards, and whether a durable write
(upsert) was performed. -/
structure ReanalyzeOutcome where
  score : FileScore
  db : Db
  cache : AnalysisCache
  wrote_durable : Bool

/-- `commands/scoring.rs` `reanalyze_file_internal`.  `current_mtime` is the
file's on-disk modification time; `fresh` abstracts the recomputation
(`load_analysis_inputs` + `score_file`) performed on the miss path, and
`now` the wall clock used for `updated_at`. -/
def reanalyze_file_internal (workspace_path file_path : String) (current_mtime : ℤ)
    (db : Db) (cache : AnalysisCache) (fresh : FileScore) (now : ℤ) :
    Except String ReanalyzeOutcome := do
  let recompute : ReanalyzeOutcome :=
    let updated := { fresh with last_modified := current_mtime }
    { score := updated
      db := upsert_file_score db now updated
      cache := patch_cached_result cache workspace_path updated
      wrote_durable := true }
  match ← load_cached_file_mtime db file_path with
  | some cached_mtime =>
    if cached_mtime = current_mtime then
      match load_cached_file_score db file_path with
      | some cached =>
        return { score := cached
                 db := db
                 cache := patch_cached_result cache workspace_path cached
                 wrote_durable := false }
      | none => return recompute
    else return recompute
  | none => return recompute

/-- `commands/scoring.rs` `CouplingPair`. -/
structure CouplingPair where
  file_a : String
  file_b : String
  coupling_ratio : ℚ
  co_change_count : ℕ
  has_import_link : Bool
deriving DecidableEq, Repr

/-- `commands/scoring.rs` `get_change_couplings`.  `all_files` is the list
of relative paths in the in-memory cached analysis result (empty when no
result is cached); `import_link` abstracts the on-disk check that file_a's
source mentions file_b's basename. -/
def get_change_couplings (co_change_result : CoChangeResult)
    (all_files : List String) (threshold : Option ℚ)
    (import_link : String → String → Bool) : List CouplingPair :=
  let min_threshold := threshold.getD 0.05
  let pairs :=
    ((co_change_result.pairs.filter (fun t => 2 ≤ t.2.2)).map (fun t =>
      let changes_a : ℕ := (co_change_result.file_change_counts.lookup t.1).getD 1
      let changes_b : ℕ := (co_change_result.file_change_counts.lookup t.2.1).getD 1
      let min_changes : ℚ := ((max (min changes_a changes_b) 1 : ℕ) : ℚ)
      { file_a := t.1
        file_b := t.2.1
        coupling_ratio := min ((t.2.2 : ℚ) / min_changes) 1
        co_change_count := t.2.2
        has_import_link := import_link t.1 t.2.1 : CouplingPair })).filter
      (fun p => decide (min_threshold ≤ p.coupling_ratio) &&
        (all_files.isEmpty || all_files.contains p.file_a || all_files.contains p.file_b))
  let sorted := pairs.insertionSort (fun p q => q.co_change_count ≤ p.co_change_count)
  sorted.take 200

/-- Modelled from the claim's words (C8): the documented behaviour of
`get_change_couplings` — pairs with co-change count ≥ 2 whose ratio
`co_count / min(changes_a, changes_b)` (clamped to 1) meets the threshold
(default 0.05), sorted by co-change count descending, capped at 200 —
with no other filtering. -/
def get_change_couplings_spec (co_change_result : CoChangeResult)
    (threshold : Option ℚ) (import_link : String → String → Bool) : List CouplingPair :=
  let min_threshold := threshold.getD 0.05
  let pairs :=
    ((co_change_result.pairs.filter (fun t => 2 ≤ t.2.2)).map (fun t =>
      let changes_a : ℕ := (co_change_result.file_change_counts.lookup t.1).getD 1
      let changes_b : ℕ := (co_change_result.file_change_counts.lookup t.2.1).getD 1
      let min_changes : ℚ := ((max (min changes_a changes_b) 1 : ℕ) : ℚ)
      { file_a := t.1
        file_b := t.2.1
        coupling_ratio := min ((t.2.2 : ℚ) / min_changes) 1
        co_change_count := t.2.2
        has_import_link := import_link t.1 t.2.1 : CouplingPair })).filter
      (fun p => decide (min_threshold ≤ p.coupling_ratio))
  let sorted := pairs.insertionSort (fun p q => q.co_change_count ≤ p.co_change_count)
  sorted.take 200

/-- `commands/scoring.rs` `load_analysis_inputs`: the three history-facts
providers are consulted and each failure is replaced by the provider's
empty default (`unwrap_or_default`). -/
def load_analysis_inputs (history_days : ℕ) (weights : List (String × ℚ))
    (churn_result : Except String ChurnData)
    (blame_result : Except String BlameData)
    (co_change_result : Except String CoChangeResult) : AnalysisInputs :=
  { history_days := history_days
    weights := weights
    churn := churn_result.toOption.getD []
    blame := blame_result.toOption.getD []
    co_changes := co_change_result.toOption.getD { pairs := [], file_change_counts := [] } }

/-- `commands/scoring.rs` `run_full_analysis_internal`.  `score` abstracts
`score_file` over the enumerated paths (`none` models `Err`, i.e. a file
whose content could not be read); a failing file is skipped via
`if let Ok(score) = ... { push }`.  Progress emission is side-effect only
and not modelled. -/
def run_full_analysis_internal (score : String → Option FileScore)
    (files : List String) (workspace_path : String) (db : Db)
    (cache : AnalysisCache) (now : ℤ) (duration_ms : ℕ) :
    AnalysisResult × Db × AnalysisCache :=
  let scored_files := files.filterMap score
  let result := build_analysis_result scored_files duration_ms
  (result, upsert_file_scores db now result.files, update_cache cache workspace_path result)

/-! Concrete sample data used by witnesses and counterexamples. -/

/-- A concrete file score used by witnesses. -/
def sampleFile : FileScore :=
  { path := "/w/src/a.rs"
    relative_path := "src/a.rs"
    composite_score := 10
    components := empty_components
    loc := 3
    language := "rust"
    last_modified := 5
    supervision_status := "none" }

/-- The six-peer example from the spec: ratios 0.2/0.4/0.6/0.8/1.0/1.0. -/
def sixPeerExample : CoChangeResult :=
  { pairs := [("target.rs", "a.rs", 2), ("target.rs", "b.rs", 4), ("target.rs", "c.rs", 6),
              ("target.rs", "d.rs", 8), ("target.rs", "e.rs", 10), ("target.rs", "f.rs", 10)]
    file_change_counts := [("target.rs", 10), ("a.rs", 10), ("b.rs", 10), ("c.rs", 10),
                           ("d.rs", 10), ("e.rs", 10), ("f.rs", 10)] }

/-- A smell census with one smell, used by the C6 witness. -/
def sampleSmells : FileSmells :=
  { god_function := 0, deep_nesting := 0, long_param_list := 0, duplicate_block := 0
    dead_import := 0, magic_number := 1, empty_catch := 0, todo_fixme := 0
    total := 1, loc := 10 }

/-- A cached analysis result holding only `sampleFile`. -/
def sampleResult : AnalysisResult :=
  { workspace_score := 10, file_count := 1, high_debt_count := 0
    files := [sampleFile], duration_ms := 0 }

/-- The breakdown `get_file_breakdown` produces for `sampleFile`. -/
def sampleBreakdown : FileBreakdown :=
  { path := "src/a.rs"
    composite_score := 10
    components :=
      [to_detail "churn_rate" sampleFile.components.churn_rate,
       to_detail "code_smell_density" sampleFile.components.code_smell_density,
       to_detail "coupling_index" sampleFile.components.coupling_index,
       to_detail "change_coupling" sampleFile.components.change_coupling,
       to_detail "test_coverage_gap" sampleFile.components.test_coverage_gap,
       to_detail "knowledge_concentration" sampleFile.components.knowledge_concentration,
       to_detail "cyclomatic_complexity" sampleFile.components.cyclomatic_complexity,
       to_detail "decision_staleness" sampleFile.components.decision_staleness] }

/-- A durable row whose components blob is malformed. -/
def malformedRow : DbRow :=
  { path := "/w/bad.rs"
    relative_path := "bad.rs"
    composite_score := 7
    loc := 2
    language := "rust"
    last_modified := 9
    supervision_status := "none"
    mtime_cached := some 9
    score_data_json := .malformed "not json"
    updated_at := 0 }

/-- A durable row for `sampleFile` as written by the upsert. -/
def sampleRow : DbRow := file_score_row 0 sampleFile

/-- One qualifying co-change pair: count 3 ≥ 2, ratio 3/4 ≥ 0.05. -/
def couplingExample : CoChangeResult :=
  { pairs := [("a.rs", "b.rs", 3)]
    file_change_counts := [("a.rs", 4), ("b.rs", 5)] }

/-- Import-link oracle that never finds a link. -/
def noImportLink : String → String → Bool := fun _ _ => false

/-- The `CouplingPair` produced from `couplingExample`. -/
def couplingPairExample : CouplingPair :=
  { file_a := "a.rs", file_b := "b.rs", coupling_ratio := 3 / 4
    co_change_count := 3, has_import_link := false }

end Debtlens

/-! # Theorems -/

namespace Debtlens

@[simp] theorem HeatmapNode.name_mk (n p : String) (s : Option ℚ) (l : Option ℕ)
    (c : Option (List HeatmapNode)) : (HeatmapNode.mk n p s l c).name = n := rfl

@[simp] theorem HeatmapNode.path_mk (n p : String) (s : Option ℚ) (l : Option ℕ)
    (c : Option (List HeatmapNode)) : (HeatmapNode.mk n p s l c).path = p := rfl

@[simp] theorem HeatmapNode.score_mk (n p : String) (s : Option ℚ) (l : Option ℕ)
    (c : Option (List HeatmapNode)) : (HeatmapNode.mk n p s l c).score = s := rfl

@[simp] theorem HeatmapNode.loc_mk (n p : String) (s : Option ℚ) (l : Option ℕ)
    (c : Option (List HeatmapNode)) : (HeatmapNode.mk n p s l c).loc = l := rfl

@[simp] theorem HeatmapNode.children_mk (n p : String) (s : Option ℚ) (l : Option ℕ)
    (c : Option (List HeatmapNode)) : (HeatmapNode.mk n p s l c).children = c := rfl

@[simp] theorem HeatmapNode.name_setChildren (n : HeatmapNode)
    (cs : Option (List HeatmapNode)) : (n.setChildren cs).name = n.name := by
  cases n; rfl

@[simp] theorem HeatmapNode.path_setChildren (n : HeatmapNode)
    (cs : Option (List HeatmapNode)) : (n.setChildren cs).path = n.path := by
  cases n; rfl

@[simp] theorem HeatmapNode.score_setChildren (n : HeatmapNode)
    (cs : Option (List HeatmapNode)) : (n.setChildren cs).score = n.score := by
  cases n; rfl

@[simp] theorem HeatmapNode.loc_setChildren (n : HeatmapNode)
    (cs : Option (List HeatmapNode)) : (n.setChildren cs).loc = n.loc := by
  cases n; rfl

@[simp] theorem HeatmapNode.children_setChildren (n : HeatmapNode)
    (cs : Option (List HeatmapNode)) : (n.setChildren cs).children = cs := by
  cases n; rfl

/-- Joining one more name on the right is one `path_join` step. -/
theorem joined_append (l : List String) (a : String) :
    joined (l ++ [a]) = path_join (joined l) a := by
  simp [joined, List.foldl_append]

/-- `forest_ok` distributes over list append. -/
theorem forest_ok_append (pref : List String) (l₁ l₂ : List HeatmapNode) :
    forest_ok pref (l₁ ++ l₂) = (forest_ok pref l₁ && forest_ok pref l₂) := by
  induction l₁ with
  | nil => simp [forest_ok]
  | cons c cs ih => simp [forest_ok, ih, Bool.and_assoc]

/-- `node_ok` on a directory node, through the accessors. -/
theorem node_ok_of_dir {n : HeatmapNode} {cs : List HeatmapNode}
    (h : n.children = some cs) (pref : List String) :
    node_ok pref n = ((n.path == joined pref) && forest_ok pref cs) := by
  cases n with
  | mk nm p s l c =>
    simp only [HeatmapNode.children_mk] at h
    subst h
    rfl

/-- `node_ok` on a leaf node, through the accessors. -/
theorem node_ok_of_leaf {n : HeatmapNode} (h : n.children = none) (pref : List String) :
    node_ok pref n = (n.path.splitOn "/" == pref) := by
  cases n with
  | mk nm p s l c =>
    simp only [HeatmapNode.children_mk] at h
    subst h
    rfl

/-- Inserting a file whose remaining path segments extend the chain `pref`
into a node whose children are all `node_ok` below `pref` preserves the
node's own fields and keeps every child `node_ok`; after a non-trivial
insertion the node certainly has a child list. -/
theorem insert_into_tree_ok (file : FileScore) :
    ∀ (parts : List String) (n : HeatmapNode) (pref : List String) (pfx : String),
      pfx = joined pref →
      file.relative_path.splitOn "/" = pref ++ parts →
      forest_ok pref (n.children.getD []) = true →
      (insert_into_tree parts n file pfx).name = n.name
      ∧ (insert_into_tree parts n file pfx).path = n.path
      ∧ (insert_into_tree parts n file pfx).score = n.score
      ∧ (insert_into_tree parts n file pfx).loc = n.loc
      ∧ (parts ≠ [] → (insert_into_tree parts n file pfx).children.isSome = true)
      ∧ forest_ok pref ((insert_into_tree parts n file pfx).children.getD []) = true := by
  intro parts
  induction parts with
  | nil =>
    intro n pref pfx hpfx h1 h2
    rw [insert_into_tree]
    exact ⟨rfl, rfl, rfl, rfl, fun h => absurd rfl h, h2⟩
  | cons head tail ih =>
    intro n pref pfx hpfx h1 h2
    cases tail with
    | nil =>
      rw [insert_into_tree]
      refine ⟨by simp, by simp, by simp, by simp, fun _ => by simp, ?_⟩
      simp only [HeatmapNode.children_setChildren, Option.getD_some]
      rw [forest_ok_append, h2]
      simp [forest_ok, node_ok, h1]
    | cons r rs =>
      subst hpfx
      rw [insert_into_tree, ← joined_append pref head]
      have hchild : ∀ cs : List HeatmapNode, forest_ok pref cs = true →
          forest_ok pref
            (insert_into_children head (r :: rs) file (joined (pref ++ [head])) cs) = true := by
        intro cs
        induction cs with
        | nil =>
          intro _
          rw [insert_into_children]
          have h1' : file.relative_path.splitOn "/" = (pref ++ [head]) ++ (r :: rs) := by
            rw [h1]; simp
          obtain ⟨hn, hp, hs, hl, hsome, hforest⟩ :=
            ih (HeatmapNode.mk head (joined (pref ++ [head])) none none (some []))
              (pref ++ [head]) (joined (pref ++ [head])) rfl h1' rfl
          obtain ⟨cs'', hcs''⟩ := Option.isSome_iff_exists.mp (hsome (by simp))
          rw [show forest_ok pref
              [insert_into_tree (r :: rs)
                (HeatmapNode.mk head (joined (pref ++ [head])) none none (some [])) file
                (joined (pref ++ [head]))] =
            (node_ok (pref ++
              [(insert_into_tree (r :: rs)
                (HeatmapNode.mk head (joined (pref ++ [head])) none none (some [])) file
                (joined (pref ++ [head]))).name])
              (insert_into_tree (r :: rs)
                (HeatmapNode.mk head (joined (pref ++ [head])) none none (some [])) file
                (joined (pref ++ [head]))) && true) from rfl]
          rw [node_ok_of_dir hcs'']
          rw [hcs''] at hforest
          simp only [Option.getD_some] at hforest
          simp [hn, hp, hforest]
        | cons c cs ihc =>
          intro hcsok
          rw [show forest_ok pref (c :: cs) =
            (node_ok (pref ++ [c.name]) c && forest_ok pref cs) from rfl,
            Bool.and_eq_true] at hcsok
          obtain ⟨hnodec, hforestcs⟩ := hcsok
          rw [insert_into_children]
          by_cases hcond : (c.name == head && c.children.isSome) = true
          · rw [if_pos hcond]
            rw [Bool.and_eq_true] at hcond
            have hcname : c.name = head := by simpa using hcond.1
            obtain ⟨ccs, hccs⟩ := Option.isSome_iff_exists.mp hcond.2
            rw [node_ok_of_dir hccs, Bool.and_eq_true] at hnodec
            have hpathc : c.path = joined (pref ++ [head]) := by
              have := hnodec.1
              rw [hcname] at this
              simpa using this
            have h1' : file.relative_path.splitOn "/" = (pref ++ [head]) ++ (r :: rs) := by
              rw [h1]; simp
            have h2' : forest_ok (pref ++ [head]) (c.children.getD []) = true := by
              rw [hccs]
              simpa [hcname] using hnodec.2
            obtain ⟨hn, hp, hs, hl, hsome', hforest'⟩ :=
              ih c (pref ++ [head]) (joined (pref ++ [head])) rfl h1' h2'
            obtain ⟨cs'', hcs''⟩ := Option.isSome_iff_exists.mp (hsome' (by simp))
            rw [show forest_ok pref
                (insert_into_tree (r :: rs) c file (joined (pref ++ [head])) :: cs) =
              (node_ok (pref ++
                [(insert_into_tree (r :: rs) c file (joined (pref ++ [head]))).name])
                (insert_into_tree (r :: rs) c file (joined (pref ++ [head]))) &&
                forest_ok pref cs) from rfl]
            rw [node_ok_of_dir hcs'']
            rw [hcs''] at hforest'
            simp only [Option.getD_some] at hforest'
            simp [hn, hp, hcname, hpathc, hforest', hforestcs]
          · rw [if_neg hcond]
            rw [show forest_ok pref
                (c :: insert_into_children head (r :: rs) file (joined (pref ++ [head])) cs) =
              (node_ok (pref ++ [c.name]) c &&
                forest_ok pref
                  (insert_into_children head (r :: rs) file (joined (pref ++ [head])) cs))
              from rfl]
            simp [hnodec, ihc hforestcs]
      refine ⟨by simp, by simp, by simp, by simp, fun _ => by simp, ?_⟩
      simp only [HeatmapNode.children_setChildren, Option.getD_some]
      exact hchild (n.children.getD []) h2

/-- Claim C3: in every heatmap tree built from a list of FileScores, the
root node's score is `None`, and every node below the root satisfies
`node_ok`: a directory's stored path is the separator-join of the chain of
ancestor names leading to it (i.e. the successive prefixes of its
descendants' split paths), and a leaf's stored path splits into exactly the
chain of ancestor names from the root to that leaf; moreover the insertion
walk reuses an existing child as a directory exactly when its name matches
and it already has a child list. -/
theorem heatmap_invariant :
    (∀ (workspace_path : String) (files : List FileScore),
       (build_heatmap_tree workspace_path files).score = none
       ∧ forest_ok [] ((build_heatmap_tree workspace_path files).children.getD []) = true)
    ∧ (∀ (dir_name : String) (rest : List String) (file : FileScore) (next_pfx : String)
         (c : HeatmapNode) (cs : List HeatmapNode),
       (c.name = dir_name → c.children.isSome = true →
         insert_into_children dir_name rest file next_pfx (c :: cs) =
           insert_into_tree rest c file next_pfx :: cs)
       ∧ (¬(c.name = dir_name ∧ c.children.isSome = true) →
         insert_into_children dir_name rest file next_pfx (c :: cs) =
           c :: insert_into_children dir_name rest file next_pfx cs)) := by
  constructor
  · intro workspace_path files
    have key : ∀ (fs : List FileScore) (node : HeatmapNode),
        node.score = none → forest_ok [] (node.children.getD []) = true →
        (fs.foldl (fun nd f => insert_into_tree (f.relative_path.splitOn "/") nd f "") node).score
            = none
        ∧ forest_ok []
            ((fs.foldl (fun nd f =>
              insert_into_tree (f.relative_path.splitOn "/") nd f "") node).children.getD [])
            = true := by
      intro fs
      induction fs with
      | nil => intro node h1 h2; exact ⟨h1, h2⟩
      | cons f ft ihf =>
        intro node h1 h2
        obtain ⟨_, _, hs, _, _, hforest⟩ :=
          insert_into_tree_ok f (f.relative_path.splitOn "/") node [] "" rfl rfl h2
        exact ihf _ (hs.trans h1) hforest
    exact key files _ rfl rfl
  · intro dir_name rest file next_pfx c cs
    constructor
    · intro hname hsome
      rw [insert_into_children, if_pos (by simp [hname, hsome])]
    · intro hno
      rw [insert_into_children, if_neg (fun hc => hno (by simpa using hc))]

/-- Witness for C3: a matching directory child is reused; a child with a
different name is skipped and the walk continues past it. -/
theorem heatmap_invariant_witness :
    insert_into_children "src" ["a.rs"] sampleFile "src"
        [HeatmapNode.mk "src" "src" none none (some [])] =
      [insert_into_tree ["a.rs"] (HeatmapNode.mk "src" "src" none none (some []))
        sampleFile "src"]
    ∧ insert_into_children "src" ["a.rs"] sampleFile "src"
        [HeatmapNode.mk "lib" "lib" none none (some [])] =
      HeatmapNode.mk "lib" "lib" none none (some []) ::
        insert_into_children "src" ["a.rs"] sampleFile "src" [] :=
  ⟨(heatmap_invariant.2 "src" ["a.rs"] sampleFile "src"
      (HeatmapNode.mk "src" "src" none none (some [])) []).1 rfl rfl,
   (heatmap_invariant.2 "src" ["a.rs"] sampleFile "src"
      (HeatmapNode.mk "lib" "lib" none none (some [])) []).2
      (fun h => absurd h.1 (by decide))⟩

/-- Claim C4: for every non-degenerate history window `d ≥ 1` (the claim's
formula `min(100, 100*c/d)` divides by the window, so the window must be
positive; the code substitutes `max(d,1)`) and commit count `c`, the churn
raw score equals `min(100, 100*c/d)`; moreover `compute_file_churn` on an
empty churn map returns `0`, count 45 over a 90-day window gives exactly
`50`, and count 365 over a 30-day window saturates at `100`. -/
theorem churn_formula :
    (∀ (m : ChurnData) (x : String) (c d : ℕ), 1 ≤ d → m.lookup x = some c →
       compute_file_churn m x d = min 100 (100 * (c : ℚ) / (d : ℚ)))
    ∧ compute_file_churn [] "x" 90 = 0
    ∧ compute_file_churn [("x", 45)] "x" 90 = 50
    ∧ compute_file_churn [("x", 365)] "x" 30 = 100 := by
  refine ⟨?_, ?_, ?_, ?_⟩
  · intro m x c d hd hl
    unfold compute_file_churn
    rw [hl]
    simp only [Option.getD_some, Nat.max_eq_left hd]
    rw [min_comm]
    congr 1
    ring
  · norm_num [compute_file_churn]
  · norm_num [compute_file_churn, List.lookup, min_def]
  · norm_num [compute_file_churn, List.lookup, min_def]

/-- Witness for C4: the general formula applied at count 3 over a 4-day
window. -/
theorem churn_formula_witness :
    compute_file_churn [("y", 3)] "y" 4 = min 100 (100 * (3 : ℚ) / (4 : ℚ)) :=
  churn_formula.1 [("y", 3)] "y" 3 4 (by norm_num) rfl

/-- Claim C5: the change-coupling score is `0` when the file appears in no
co-change pair; for a single peer the score is `100 × ratio` with
`ratio = co_count / max(min(changes_a, changes_b), 1)` clamped to `1`; and
on the spec's six-peer example with ratios `{1.0, 1.0, 0.8, 0.6, 0.4, 0.2}`
the score (the average of the top five ratios × 100) is exactly `76`. -/
theorem change_coupling_claim :
    (∀ (path : String) (r : CoChangeResult),
       (∀ t ∈ r.pairs, t.1 ≠ path ∧ t.2.1 ≠ path) →
       compute_change_coupling path r = 0)
    ∧ (∀ (path pa pb : String) (co : ℕ) (counts : List (String × ℕ)),
       (pa == path || pb == path) = true →
       compute_change_coupling path ⟨[(pa, pb, co)], counts⟩ =
         100 * min ((co : ℚ) /
           ((max (min ((counts.lookup pa).getD 1) ((counts.lookup pb).getD 1)) 1 : ℕ) : ℚ)) 1)
    ∧ compute_change_coupling "target.rs" sixPeerExample = 76 := by
  refine ⟨?_, ?_, ?_⟩
  · intro path r h
    unfold compute_change_coupling
    have hnil : r.pairs.filterMap (fun t =>
        if t.1 == path || t.2.1 == path then
          some (min ((t.2.2 : ℚ) /
            ((max (min ((r.file_change_counts.lookup t.1).getD 1)
              ((r.file_change_counts.lookup t.2.1).getD 1)) 1 : ℕ) : ℚ)) 1)
        else none) = [] := by
      rw [List.filterMap_eq_nil_iff]
      intro t ht
      have h1 := (h t ht).1
      have h2 := (h t ht).2
      simp [h1, h2]
    simp only [hnil]
    simp
  · intro path pa pb co counts h
    unfold compute_change_coupling
    simp only [List.filterMap_cons, List.filterMap_nil, h, if_true]
    have hle : min ((co : ℚ) /
        ((max (min ((counts.lookup pa).getD 1) ((counts.lookup pb).getD 1)) 1 : ℕ) : ℚ)) 1 ≤ 1 :=
      min_le_right _ _
    simp only [List.isEmpty_cons, List.insertionSort, List.orderedInsert, List.take,
      List.sum_cons, List.sum_nil, List.length_cons, List.length_nil]
    rw [if_neg (by simp)]
    push_cast
    push_cast at hle
    rw [div_one]
    rw [min_eq_left (by nlinarith [hle])]
    ring
  · have hratios : sixPeerExample.pairs.filterMap (fun t =>
        if t.1 == "target.rs" || t.2.1 == "target.rs" then
          some (min ((t.2.2 : ℚ) /
            ((max (min ((sixPeerExample.file_change_counts.lookup t.1).getD 1)
              ((sixPeerExample.file_change_counts.lookup t.2.1).getD 1)) 1 : ℕ) : ℚ)) 1)
        else none) = [1/5, 2/5, 3/5, 4/5, 1, 1] := by
      simp [sixPeerExample, List.lookup]
      norm_num [min_def]
    unfold compute_change_coupling
    rw [hratios]
    norm_num [List.insertionSort, List.orderedInsert, min_def]

/-- Witness for C5: the no-peer case at a file absent from the pair table,
and the single-peer case at a concrete pair. -/
theorem change_coupling_witness :
    compute_change_coupling "x.rs" ⟨[("a.rs", "b.rs", 3)], []⟩ = 0
    ∧ compute_change_coupling "a.rs" ⟨[("a.rs", "b.rs", 3)], [("a.rs", 4), ("b.rs", 5)]⟩ =
        100 * min ((3 : ℚ) /
          ((max (min ((([("a.rs", 4), ("b.rs", 5)] : List (String × ℕ)).lookup "a.rs").getD 1)
            ((([("a.rs", 4), ("b.rs", 5)] : List (String × ℕ)).lookup "b.rs").getD 1)) 1 : ℕ) : ℚ)) 1 :=
  ⟨change_coupling_claim.1 "x.rs" ⟨[("a.rs", "b.rs", 3)], []⟩ (by decide),
   change_coupling_claim.2.1 "a.rs" "a.rs" "b.rs" 3 [("a.rs", 4), ("b.rs", 5)] (by decide)⟩

/-- Claim C6: the code-smell raw score is `min(100, total/loc * 5000)`,
is `0` when `loc = 0` regardless of the census, and saturates at `100`
whenever `total/loc ≥ 0.02`. -/
theorem smell_score_formula :
    ∀ (smells : FileSmells) (loc : ℕ),
      compute_smell_score smells 0 = 0
      ∧ (loc ≠ 0 →
          compute_smell_score smells loc = min 100 ((smells.total : ℚ) / (loc : ℚ) * 5000))
      ∧ (loc ≠ 0 → (0.02 : ℚ) ≤ (smells.total : ℚ) / (loc : ℚ) →
          compute_smell_score smells loc = 100) := by
  intro s loc
  refine ⟨by simp [compute_smell_score], ?_, ?_⟩
  · intro h
    simp only [compute_smell_score, if_neg h]
    rw [min_comm]
  · intro h h2
    have h5000 : (100 : ℚ) ≤ (s.total : ℚ) / (loc : ℚ) * 5000 := by nlinarith
    simp only [compute_smell_score, if_neg h]
    rw [min_eq_right h5000]

/-- Witness for C6: the zero-loc case, and saturation at `total/loc = 0.02`
exactly (one smell in 50 lines). -/
theorem smell_score_witness :
    compute_smell_score sampleSmells 0 = 0 ∧ compute_smell_score sampleSmells 50 = 100 :=
  ⟨(smell_score_formula sampleSmells 0).1,
   (smell_score_formula sampleSmells 50).2.2 (by norm_num) (by norm_num [sampleSmells])⟩

/-- Claim C1: every `FileScore` produced by `score_file` stores, in each of
the eight component slots, `contribution = raw_score × weight`, and its
`composite_score` is the exact sum of the eight stored contributions; and
`get_file_breakdown` returns the stored composite score and the stored
per-slot values of the file it finds, recomputing nothing. -/
theorem composite_and_breakdown :
    (∀ (file_path : String) (inputs : AnalysisInputs) (relative_path lang : String)
       (loc : ℕ) (last_modified : ℤ) (smells : FileSmells)
       (coupling_raw coverage_raw staleness_raw complexity_average : ℚ),
       let fs := score_file file_path inputs relative_path lang loc last_modified smells
         coupling_raw coverage_raw staleness_raw complexity_average
       (fs.components.churn_rate.contribution =
          fs.components.churn_rate.raw_score * fs.components.churn_rate.weight)
       ∧ (fs.components.code_smell_density.contribution =
          fs.components.code_smell_density.raw_score * fs.components.code_smell_density.weight)
       ∧ (fs.components.coupling_index.contribution =
          fs.components.coupling_index.raw_score * fs.components.coupling_index.weight)
       ∧ (fs.components.change_coupling.contribution =
          fs.components.change_coupling.raw_score * fs.components.change_coupling.weight)
       ∧ (fs.components.test_coverage_gap.contribution =
          fs.components.test_coverage_gap.raw_score * fs.components.test_coverage_gap.weight)
       ∧ (fs.components.knowledge_concentration.contribution =
          fs.components.knowledge_concentration.raw_score *
            fs.components.knowledge_concentration.weight)
       ∧ (fs.components.cyclomatic_complexity.contribution =
          fs.components.cyclomatic_complexity.raw_score *
            fs.components.cyclomatic_complexity.weight)
       ∧ (fs.components.decision_staleness.contribution =
          fs.components.decision_staleness.raw_score * fs.components.decision_staleness.weight)
       ∧ fs.composite_score =
           fs.components.churn_rate.contribution
           + fs.components.code_smell_density.contribution
           + fs.components.coupling_index.contribution
           + fs.components.change_coupling.contribution
           + fs.components.test_coverage_gap.contribution
           + fs.components.knowledge_concentration.contribution
           + fs.components.cyclomatic_complexity.contribution
           + fs.components.decision_staleness.contribution)
    ∧ (∀ (cached : Option AnalysisResult) (path : String) (b : FileBreakdown),
       get_file_breakdown cached path = .ok b →
       ∃ result file, cached = some result ∧ find_file result path = some file
         ∧ b.path = file.relative_path
         ∧ b.composite_score = file.composite_score
         ∧ b.components =
             [to_detail "churn_rate" file.components.churn_rate,
              to_detail "code_smell_density" file.components.code_smell_density,
              to_detail "coupling_index" file.components.coupling_index,
              to_detail "change_coupling" file.components.change_coupling,
              to_detail "test_coverage_gap" file.components.test_coverage_gap,
              to_detail "knowledge_concentration" file.components.knowledge_concentration,
              to_detail "cyclomatic_complexity" file.components.cyclomatic_complexity,
              to_detail "decision_staleness" file.components.decision_staleness]) := by
  constructor
  · intro file_path inputs relative_path lang loc last_modified smells
      coupling_raw coverage_raw staleness_raw complexity_average
    exact ⟨rfl, rfl, rfl, rfl, rfl, rfl, rfl, rfl, rfl⟩
  · intro cached path b h
    match cached with
    | none => simp [get_file_breakdown] at h
    | some result =>
      match hf : find_file result path with
      | none => simp [get_file_breakdown, hf] at h
      | some file =>
        simp only [get_file_breakdown, hf, Except.ok.injEq] at h
        exact ⟨result, file, rfl, hf, by rw [← h], by rw [← h], by rw [← h]⟩

/-- Witness for C1: the breakdown clause applied to a concrete cached
result holding `sampleFile`. -/
theorem composite_and_breakdown_witness :
    ∃ result file, some sampleResult = some result
      ∧ find_file result "src/a.rs" = some file
      ∧ sampleBreakdown.path = file.relative_path
      ∧ sampleBreakdown.composite_score = file.composite_score
      ∧ sampleBreakdown.components =
          [to_detail "churn_rate" file.components.churn_rate,
           to_detail "code_smell_density" file.components.code_smell_density,
           to_detail "coupling_index" file.components.coupling_index,
           to_detail "change_coupling" file.components.change_coupling,
           to_detail "test_coverage_gap" file.components.test_coverage_gap,
           to_detail "knowledge_concentration" file.components.knowledge_concentration,
           to_detail "cyclomatic_complexity" file.components.cyclomatic_complexity,
           to_detail "decision_staleness" file.components.decision_staleness] :=
  composite_and_breakdown.2 (some sampleResult) "src/a.rs" sampleBreakdown rfl

/-- In-place replacement of the conflicting row: after mapping the
replacement over a table that contains the path, lookup finds the new row. -/
theorem find_map_replace (now : ℤ) (f : FileScore) :
    ∀ db : Db, (db.find? (fun r => r.path == f.path)).isSome = true →
      (db.map (fun r => if r.path == f.path then file_score_row now f else r)).find?
        (fun r => r.path == f.path) = some (file_score_row now f) := by
  intro db
  induction db with
  | nil => intro h; simp at h
  | cons r t ih =>
    intro h
    by_cases hr : (r.path == f.path) = true
    · rw [List.map_cons, if_pos hr,
        List.find?_cons_of_pos _ (by simp [file_score_row])]
    · have hrf : (r.path == f.path) = false := by simpa using hr
      rw [List.find?_cons, hrf] at h
      rw [List.map_cons, if_neg hr, List.find?_cons, hrf]
      exact ih h

/-- The upsert always leaves a row for the score's path, and lookup by that
path returns the freshly written row. -/
theorem db_find_upsert (db : Db) (now : ℤ) (f : FileScore) :
    db_find (upsert_file_score db now f) f.path = some (file_score_row now f) := by
  unfold upsert_file_score
  split
  case isTrue h => exact find_map_replace now f db h
  case isFalse h =>
    have hnone : db.find? (fun r => r.path == f.path) = none := by
      cases hfind : db.find? (fun r => r.path == f.path) with
      | none => rfl
      | some r => rw [hfind] at h; simp at h
    simp [db_find, List.find?_append, hnone, file_score_row]

/-- Claim C7: persisting any `FileScore` and reloading it by its absolute
path reproduces relative path, composite score and line count exactly; and
a malformed persisted components blob degrades the load to the all-zero
`empty_components` instead of failing. -/
theorem file_score_round_trip :
    (∀ (db : Db) (now : ℤ) (f : FileScore),
       ∃ g, load_cached_file_score (upsert_file_score db now f) f.path = some g
         ∧ g.relative_path = f.relative_path
         ∧ g.composite_score = f.composite_score
         ∧ g.loc = f.loc)
    ∧ (∀ (db : Db) (p : String) (row : DbRow) (s : String),
       db_find db p = some row → row.score_data_json = .malformed s →
       ∃ g, load_cached_file_score db p = some g ∧ g.components = empty_components)
    ∧ empty_components =
        { churn_rate := { raw_score := 0, weight := 0, contribution := 0, details := [] }
          code_smell_density := { raw_score := 0, weight := 0, contribution := 0, details := [] }
          coupling_index := { raw_score := 0, weight := 0, contribution := 0, details := [] }
          change_coupling := { raw_score := 0, weight := 0, contribution := 0, details := [] }
          test_coverage_gap := { raw_score := 0, weight := 0, contribution := 0, details := [] }
          knowledge_concentration :=
            { raw_score := 0, weight := 0, contribution := 0, details := [] }
          cyclomatic_complexity :=
            { raw_score := 0, weight := 0, contribution := 0, details := [] }
          decision_staleness :=
            { raw_score := 0, weight := 0, contribution := 0, details := [] } } := by
  refine ⟨?_, ?_, rfl⟩
  · intro db now f
    refine ⟨row_to_file_score (file_score_row now f), ?_, rfl, rfl, ?_⟩
    · rw [load_cached_file_score, db_find_upsert]
      rfl
    · simp [row_to_file_score, file_score_row]
  · intro db p row s hf hm
    refine ⟨row_to_file_score row, ?_, ?_⟩
    · simp [load_cached_file_score, hf]
    · simp [row_to_file_score, hm, parse_components]

/-- Witness for C7: the malformed-blob clause applied at a concrete store
holding `malformedRow`. -/
theorem file_score_round_trip_witness :
    ∃ g, load_cached_file_score [malformedRow] "/w/bad.rs" = some g
      ∧ g.components = empty_components :=
  file_score_round_trip.2.1 [malformedRow] "/w/bad.rs" malformedRow "not json" rfl rfl

/-- Claim C2: when the current on-disk modification time equals the durable
`mtime_cached`, `reanalyze_file_internal` returns the durable `FileScore`
verbatim with no durable write, and a second identical call returns the
bit-identical score, again without writing (the in-memory cache is still
patched on both calls). -/
theorem rescan_idempotent :
    ∀ (wp fp : String) (mt now now₂ : ℤ) (db : Db) (cache : AnalysisCache)
      (fresh fresh₂ : FileScore) (row : DbRow),
      db_find db fp = some row → row.mtime_cached = some mt →
      reanalyze_file_internal wp fp mt db cache fresh now =
        .ok { score := row_to_file_score row
              db := db
              cache := patch_cached_result cache wp (row_to_file_score row)
              wrote_durable := false }
      ∧ reanalyze_file_internal wp fp mt db
          (patch_cached_result cache wp (row_to_file_score row)) fresh₂ now₂ =
        .ok { score := row_to_file_score row
              db := db
              cache := patch_cached_result
                (patch_cached_result cache wp (row_to_file_score row)) wp
                (row_to_file_score row)
              wrote_durable := false } := by
  intro wp fp mt now now₂ db cache fresh fresh₂ row hfind hmt
  have hm : load_cached_file_mtime db fp = .ok (some mt) := by
    simp [load_cached_file_mtime, hfind, hmt]
  have hs : load_cached_file_score db fp = some (row_to_file_score row) := by
    simp [load_cached_file_score, hfind]
  constructor <;>
    simp [reanalyze_file_internal, hm, hs, bind, Except.bind, pure, Except.pure]

/-- Witness for C2: both calls on a one-row store whose cached mtime
matches the on-disk mtime. -/
theorem rescan_idempotent_witness :
    reanalyze_file_internal "/w" "/w/src/a.rs" 5 [sampleRow]
        ⟨none, none, none⟩ sampleFile 1 =
      .ok { score := row_to_file_score sampleRow
            db := [sampleRow]
            cache := patch_cached_result ⟨none, none, none⟩ "/w" (row_to_file_score sampleRow)
            wrote_durable := false }
    ∧ reanalyze_file_internal "/w" "/w/src/a.rs" 5 [sampleRow]
        (patch_cached_result ⟨none, none, none⟩ "/w" (row_to_file_score sampleRow))
        sampleFile 2 =
      .ok { score := row_to_file_score sampleRow
            db := [sampleRow]
            cache := patch_cached_result
              (patch_cached_result ⟨none, none, none⟩ "/w" (row_to_file_score sampleRow)) "/w"
              (row_to_file_score sampleRow)
            wrote_durable := false } :=
  rescan_idempotent "/w" "/w/src/a.rs" 5 1 2 [sampleRow] ⟨none, none, none⟩
    sampleFile sampleFile sampleRow rfl rfl

/-- Claim C9: a file whose content cannot be read (`score` returns `none`)
is silently omitted — removing it from the enumeration does not change the
result, which still holds every readable file's score; and when all three
history-facts providers fail, the analysis inputs degrade to empty data,
making every file's churn, knowledge-concentration and change-coupling raw
scores `0`. -/
theorem scan_degradation :
    (∀ (score : String → Option FileScore) (files₁ files₂ : List String) (fp wp : String)
       (db : Db) (cache : AnalysisCache) (now : ℤ) (dur : ℕ),
       score fp = none →
       (run_full_analysis_internal score (files₁ ++ fp :: files₂) wp db cache now dur).1.files =
         (run_full_analysis_internal score (files₁ ++ files₂) wp db cache now dur).1.files)
    ∧ (∀ (score : String → Option FileScore) (files : List String) (wp : String)
       (db : Db) (cache : AnalysisCache) (now : ℤ) (dur : ℕ),
       (run_full_analysis_internal score files wp db cache now dur).1.files =
         files.filterMap score)
    ∧ (∀ (d : ℕ) (w : List (String × ℚ)) (e₁ e₂ e₃ : String) (path : String),
       let inputs := load_analysis_inputs d w (.error e₁) (.error e₂) (.error e₃)
       compute_file_churn inputs.churn path inputs.history_days = 0
       ∧ compute_knowledge_concentration inputs.blame path = 0
       ∧ compute_change_coupling path inputs.co_changes = 0) := by
  refine ⟨?_, ?_, ?_⟩
  · intro score files₁ files₂ fp wp db cache now dur h
    simp [run_full_analysis_internal, build_analysis_result, List.filterMap_append,
      List.filterMap_cons, h]
  · intro score files wp db cache now dur
    rfl
  · intro d w e₁ e₂ e₃ path
    refine ⟨?_, ?_, ?_⟩
    · simp [compute_file_churn, load_analysis_inputs, Except.toOption, min_def]
    · simp [compute_knowledge_concentration, load_analysis_inputs, Except.toOption]
    · simp [compute_change_coupling, load_analysis_inputs, Except.toOption]

/-- Witness for C9: dropping an unreadable file from a concrete enumeration
leaves the result unchanged. -/
theorem scan_degradation_witness :
    (run_full_analysis_internal (fun _ => none) (["a.rs"] ++ "bad.rs" :: ["b.rs"]) "/w" []
        ⟨none, none, none⟩ 0 0).1.files =
      (run_full_analysis_internal (fun _ => none) (["a.rs"] ++ ["b.rs"]) "/w" []
        ⟨none, none, none⟩ 0 0).1.files :=
  scan_degradation.1 (fun _ => none) ["a.rs"] ["b.rs"] "bad.rs" "/w" [] ⟨none, none, none⟩ 0 0 rfl

/-- Counterexample to C8 as stated: with a non-empty cached file list that
contains neither file of a qualifying pair (count 3 ≥ 2, ratio 3/4 ≥ 0.05),
`get_change_couplings` drops the pair, so the command does not return
exactly the pairs meeting the documented count/ratio thresholds. -/
theorem couplings_cache_filter_counterexample :
    get_change_couplings couplingExample ["z.rs"] none noImportLink = []
    ∧ get_change_couplings_spec couplingExample none noImportLink = [couplingPairExample]
    ∧ get_change_couplings couplingExample ["z.rs"] none noImportLink ≠
        get_change_couplings_spec couplingExample none noImportLink := by
  have l1 : List.lookup "a.rs" [("a.rs", (4 : ℕ)), ("b.rs", 5)] = some 4 := rfl
  have l2 : List.lookup "b.rs" [("a.rs", (4 : ℕ)), ("b.rs", 5)] = some 5 := rfl
  have hdrop : get_change_couplings couplingExample ["z.rs"] none noImportLink = [] := by
    simp [get_change_couplings, couplingExample, noImportLink]
  have hkeep : get_change_couplings_spec couplingExample none noImportLink =
      [couplingPairExample] := by
    norm_num [get_change_couplings_spec, couplingExample, noImportLink, couplingPairExample,
      l1, l2, List.insertionSort, List.orderedInsert, min_def]
  refine ⟨hdrop, hkeep, ?_⟩
  intro h
  rw [hdrop, hkeep] at h
  exact List.cons_ne_nil _ _ h.symm

/-- Claim C8 as amended: whenever the in-memory cached analysis result holds
no file list (so `all_files` is empty), `get_change_couplings` returns
exactly the co-change pairs with count ≥ 2 and ratio ≥ the threshold
(default 0.05), ratio `co_count / max(min(changes_a, changes_b), 1)` clamped
to 1, sorted by co-change count descending and capped at 200. -/
theorem couplings_documented_when_cache_empty :
    ∀ (co_change_result : CoChangeResult) (threshold : Option ℚ)
      (import_link : String → String → Bool),
      get_change_couplings co_change_result [] threshold import_link =
        get_change_couplings_spec co_change_result threshold import_link := by
  intro co thr link
  simp [get_change_couplings, get_change_couplings_spec]

/-- Claim C10: beyond the documented thresholds, `get_change_couplings`
keeps a pair only when the cached file list is empty or one of the pair's
files appears in it; with an empty cached list no such filtering occurs. -/
theorem couplings_cache_filter :
    (∀ (co_change_result : CoChangeResult) (threshold : Option ℚ)
       (import_link : String → String → Bool) (all_files : List String) (p : CouplingPair),
       p ∈ get_change_couplings co_change_result all_files threshold import_link →
       all_files = [] ∨ p.file_a ∈ all_files ∨ p.file_b ∈ all_files)
    ∧ (∀ (co_change_result : CoChangeResult) (threshold : Option ℚ)
       (import_link : String → String → Bool),
       get_change_couplings co_change_result [] threshold import_link =
         get_change_couplings_spec co_change_result threshold import_link) := by
  constructor
  · intro co thr link all_files p hp
    have h1 : p ∈ (((co.pairs.filter (fun t => 2 ≤ t.2.2)).map (fun t =>
        let changes_a : ℕ := (co.file_change_counts.lookup t.1).getD 1
        let changes_b : ℕ := (co.file_change_counts.lookup t.2.1).getD 1
        let min_changes : ℚ := ((max (min changes_a changes_b) 1 : ℕ) : ℚ)
        { file_a := t.1
          file_b := t.2.1
          coupling_ratio := min ((t.2.2 : ℚ) / min_changes) 1
          co_change_count := t.2.2
          has_import_link := link t.1 t.2.1 : CouplingPair })).filter
        (fun q => decide ((thr.getD 0.05) ≤ q.coupling_ratio) &&
          (all_files.isEmpty || all_files.contains q.file_a ||
            all_files.contains q.file_b))) := by
      have h2 := List.take_subset 200 _ hp
      exact (List.mem_insertionSort (fun p q => q.co_change_count ≤ p.co_change_count)).mp h2
    have h3 := (List.mem_filter.mp h1).2
    have h4 := (Bool.and_eq_true _ _).mp h3
    rcases (Bool.or_eq_true _ _).mp h4.2 with h5 | h5
    · rcases (Bool.or_eq_true _ _).mp h5 with h6 | h6
      · exact Or.inl (List.isEmpty_iff.mp h6)
      · exact Or.inr (Or.inl (by simpa using h6))
    · exact Or.inr (Or.inr (by simpa using h5))
  · intro co thr link
    simp [get_change_couplings, get_change_couplings_spec]

/-- Witness for C10: the membership clause applied to the pair produced
when the cached file list contains `"a.rs"`. -/
theorem couplings_cache_filter_witness :
    ["a.rs"] = ([] : List String) ∨ couplingPairExample.file_a ∈ ["a.rs"]
      ∨ couplingPairExample.file_b ∈ ["a.rs"] := by
  have l1 : List.lookup "a.rs" [("a.rs", (4 : ℕ)), ("b.rs", 5)] = some 4 := rfl
  have l2 : List.lookup "b.rs" [("a.rs", (4 : ℕ)), ("b.rs", 5)] = some 5 := rfl
  have hmem : couplingPairExample ∈
      get_change_couplings couplingExample ["a.rs"] none noImportLink := by
    rw [show get_change_couplings couplingExample ["a.rs"] none noImportLink =
        [couplingPairExample] from by
      norm_num [get_change_couplings, couplingExample, noImportLink, couplingPairExample,
        l1, l2, List.insertionSort, List.orderedInsert, min_def]]
    exact List.mem_singleton.mpr rfl
  exact couplings_cache_filter.1 couplingExample none noImportLink ["a.rs"]
    couplingPairExample hmem

end Debtlens
